import Mathlib

/-!
Verification of the YouTube-chapters API (`main.py`) against its
natural-language specification.

Python strings are embedded as `List Char`; the helper functions
(`splitHead`, `pyIn`, `pyStrip`, ...) mirror the exact semantics of the
Python string operations used by the source (`str.split`, `in`,
`str.strip`).  Python float arithmetic in `format_time` is idealized as
exact rational arithmetic: `//`, `%` and `int()` are modelled by
`pyFloorDiv`, `pyMod` and `pyInt`, implemented on numerators and
denominators so that they evaluate, with bridge lemmas relating them to
`Int.floor`.  Exceptions are embedded as an error type `PyErr` carried in
`Except`; the two generative-model calls are inputs (`Except PyErr
(List Char)`) since their outputs come from the network.
-/

/-- Shorthand turning a Lean string literal into the `List Char` embedding
of a Python string. -/
def lc (s : String) : List Char := s.toList

/-- Python exceptions that can flow through `main.py`.  `other` stands for
any further exception raised by the external libraries.  `httpException`
is FastAPI's `HTTPException(status_code, detail)`. -/
inductive PyErr where
  | valueError (msg : List Char)
  | httpException (status : Nat) (detail : List Char)
  | stopIteration
  | other (msg : List Char)
deriving DecidableEq

/-- Python `str(e)` for the exceptions of `PyErr`.
`str(ValueError(m)) = m`, `str(StopIteration()) = ""`, and starlette's
`HTTPException.__str__` renders `f"{status_code}: {detail}"`. -/
def pyStr : PyErr → List Char
  | .valueError m => m
  | .httpException st d => Nat.toDigits 10 st ++ ':' :: ' ' :: d
  | .stopIteration => []
  | .other m => m

/-- Scan `s` left to right for the first occurrence of the (non-empty)
separator `sep`: returns the segment before it and, if found, the
remainder after it.  This is the primitive underlying Python's
`str.split` and the `in` operator. -/
def splitHead (sep : List Char) : List Char → List Char × Option (List Char)
  | [] => ([], none)
  | c :: rest =>
    if sep.isPrefixOf (c :: rest) then
      ([], some (List.drop sep.length (c :: rest)))
    else
      (c :: (splitHead sep rest).1, (splitHead sep rest).2)

/-- Python `sep in s` (substring containment, for non-empty `sep`). -/
def pyIn (sep s : List Char) : Bool := (splitHead sep s).2.isSome

/-- Python `s.split(sep)[0]`: the segment before the first occurrence of
`sep` (the whole string when `sep` does not occur). -/
def pySplit0 (sep s : List Char) : List Char := (splitHead sep s).1

/-- Python `s.split(sep)[1]` (call sites guard on `sep in s`): the segment
between the first and second occurrences of `sep`. -/
def pySplit1 (sep s : List Char) : List Char :=
  (splitHead sep ((splitHead sep s).2.getD [])).1

/-- The whitespace test of Python's `str.strip()` (ASCII part). -/
def pyIsSpace (c : Char) : Bool :=
  c == ' ' || c == '\t' || c == '\n' || c == '\r' || c == '\x0b' || c == '\x0c'

/-- Python `s.strip()`. -/
def pyStrip (s : List Char) : List Char :=
  ((s.dropWhile pyIsSpace).reverse.dropWhile pyIsSpace).reverse

/-- Embedding of `extract_video_id` (main.py lines 37-46):
`url.split('v=')[1].split('&')[0]` when `'v=' in url`, else
`url.split('youtu.be/')[1].split('?')[0]` when `'youtu.be/' in url`,
else `raise ValueError("Invalid YouTube URL")`. -/
def extract_video_id (url : List Char) : Except PyErr (List Char) :=
  if pyIn (lc "v=") url then
    .ok (pySplit0 (lc "&") (pySplit1 (lc "v=") url))
  else if pyIn (lc "youtu.be/") url then
    .ok (pySplit0 (lc "?") (pySplit1 (lc "youtu.be/") url))
  else
    .error (.valueError (lc "Invalid YouTube URL"))

/-- Python float `a // b` (floor division), idealized over exact
rationals and computed on numerators and denominators so that it
kernel-evaluates; `pyFloorDiv_60_eq` relates it to `Int.floor`. -/
def pyFloorDiv (a b : ℚ) : ℚ :=
  ((Int.fdiv (a.num * b.den) (a.den * b.num) : ℤ) : ℚ)

/-- Python float `a % b` (`a - b * (a // b)`, sign of the divisor),
idealized over exact rationals; `pyMod_60_eq` relates it to the
mathematical `a - b * ⌊a / b⌋`. -/
def pyMod (a b : ℚ) : ℚ :=
  Rat.divInt (a.num * b.den - a.den * b.num * Int.fdiv (a.num * b.den) (a.den * b.num))
    (a.den * b.den)

/-- Python `int(q)`: truncation toward zero (`Int.tdiv` of the numerator
by the positive denominator). -/
def pyInt (q : ℚ) : Int := Int.tdiv q.num q.den

/-- Decimal rendering of an integer, as Python's `f"{i}"`. -/
def intDigits (i : Int) : List Char :=
  if i < 0 then '-' :: Nat.toDigits 10 (-i).toNat else Nat.toDigits 10 i.toNat

/-- Python `f"{i:02}"`: decimal rendering zero-padded to width at least 2. -/
def pyFormat02 (i : Int) : List Char :=
  if (intDigits i).length < 2 then '0' :: intDigits i else intDigits i

/-- Embedding of `format_time` (main.py lines 49-55):
`minutes = int(seconds // 60); seconds = int(seconds % 60);
return f"{minutes:02}:{seconds:02}"`. -/
def format_time (seconds : ℚ) : List Char :=
  pyFormat02 (pyInt (pyFloorDiv seconds 60)) ++ ':' :: pyFormat02 (pyInt (pyMod seconds 60))

/-- One transcript entry as returned by the transcript provider
(`{'start': ..., 'duration': ..., 'text': ...}`). -/
structure RawEntry where
  start : ℚ
  duration : ℚ
  text : List Char
deriving DecidableEq

/-- One language track of the provider's transcript listing. -/
structure Track where
  language_code : List Char
deriving DecidableEq

/-- The external transcript provider (`YouTubeTranscriptApi`):
`list_transcripts` lists the language tracks for a video id, and `fetch`
returns the entries of `find_transcript([language_code]).fetch()`; both
may raise. -/
structure Provider where
  list_transcripts : List Char → Except PyErr (List Track)
  fetch : List Char → List Char → Except PyErr (List RawEntry)

/-- One element of the `formatted_transcript` list built in
`fetch_transcript` (main.py lines 82-90). -/
structure FormattedEntry where
  time : List Char
  text : List Char
  start : ℚ
  duration : ℚ
deriving DecidableEq

/-- Truthiness test `not language_code` of main.py line 70: `None` and
the empty string are falsy. -/
def pyTruthy : Option (List Char) → Bool
  | none => false
  | some s => !s.isEmpty

/-- The language-selection logic of `fetch_transcript`
(main.py lines 70-76): keep a supplied (truthy) code; otherwise pick
`'en'` when listed, else the first listed track
(`next(iter(transcript_list))`, `StopIteration` when empty). -/
def detect_language (language_code : Option (List Char)) (tracks : List Track) :
    Except PyErr (List Char) :=
  if pyTruthy language_code then .ok (language_code.getD [])
  else if lc "en" ∈ tracks.map Track.language_code then .ok (lc "en")
  else
    match tracks with
    | [] => .error .stopIteration
    | t :: _ => .ok t.language_code

/-- The body of the `try` block of `fetch_transcript`
(main.py lines 63-92). -/
def fetch_transcript_body (video_url : List Char) (language_code : Option (List Char))
    (p : Provider) : Except PyErr (List FormattedEntry × List Char) :=
  match extract_video_id video_url with
  | .error e => .error e
  | .ok video_id =>
    match p.list_transcripts video_id with
    | .error e => .error e
    | .ok transcript_list =>
      match detect_language language_code transcript_list with
      | .error e => .error e
      | .ok lang =>
        match p.fetch video_id lang with
        | .error e => .error e
        | .ok transcript =>
          .ok (transcript.map
            (fun entry => ⟨format_time entry.start, entry.text, entry.start, entry.duration⟩),
            lang)

/-- Embedding of `fetch_transcript` (main.py lines 58-95): the blanket
`except Exception` wraps every failure of the body - including the
`ValueError` of `extract_video_id` - into
`HTTPException(404, f"Error fetching transcript: {str(e)}")`. -/
def fetch_transcript (video_url : List Char) (language_code : Option (List Char))
    (p : Provider) : Except PyErr (List FormattedEntry × List Char) :=
  match fetch_transcript_body video_url language_code p with
  | .ok r => .ok r
  | .error e => .error (.httpException 404 (lc "Error fetching transcript: " ++ pyStr e))

/-- One parsed chapter (`{"timestamp": ..., "title": ...}`). -/
structure Chapter where
  timestamp : List Char
  title : List Char
deriving DecidableEq

/-- The separator `' - '` used by the chapter parsers. -/
def sepDash : List Char := [' ', '-', ' ']

/-- The parsing loop of `generate_chapters_with_gemini`
(main.py lines 162-169): iterate over the lines, appending
`{"timestamp": parts[0].strip(), "title": parts[1].strip()}` for each
line with `' - ' in chapter and ':' in chapter.split(' - ')[0]`. -/
def draft_parse_loop : List (List Char) → List Chapter → List Chapter
  | [], chapters => chapters
  | chapter :: rest, chapters =>
    if pyIn sepDash chapter && pyIn [':'] (pySplit0 sepDash chapter) then
      draft_parse_loop rest
        (chapters ++ [⟨pyStrip (pySplit0 sepDash chapter),
          pyStrip ((splitHead sepDash chapter).2.getD [])⟩])
    else
      draft_parse_loop rest chapters

/-- The drafter's parsing of a model response (main.py line 161 + loop):
`response.text.strip().split('\n')`, then `draft_parse_loop`. -/
def parse_chapters_draft (text : List Char) : List Chapter :=
  draft_parse_loop (List.splitOn '\n' (pyStrip text)) []

/-- The parsing loop of `refine_chapters_with_gemini`
(main.py lines 246-253); the source duplicates the drafter's loop
verbatim. -/
def refine_parse_loop : List (List Char) → List Chapter → List Chapter
  | [], refined_chapters => refined_chapters
  | chapter :: rest, refined_chapters =>
    if pyIn sepDash chapter && pyIn [':'] (pySplit0 sepDash chapter) then
      refine_parse_loop rest
        (refined_chapters ++ [⟨pyStrip (pySplit0 sepDash chapter),
          pyStrip ((splitHead sepDash chapter).2.getD [])⟩])
    else
      refine_parse_loop rest refined_chapters

/-- The refiner's parsing of a model response (main.py line 245 + loop). -/
def parse_chapters_refine (text : List Char) : List Chapter :=
  refine_parse_loop (List.splitOn '\n' (pyStrip text)) []

/-- Embedding of `generate_chapters_with_gemini` (main.py lines 99-175).
The outcome of the network call `model.generate_content(prompt)` /
`response.text` is the input `modelResult`; the `try` wraps any failure
of the call into `HTTPException(500, ...)`, while a returned text is
parsed by pure string operations that cannot raise. -/
def generate_chapters_with_gemini (transcript : List FormattedEntry)
    (modelResult : Except PyErr (List Char)) : Except PyErr (List Chapter) :=
  match modelResult with
  | .ok text => .ok (parse_chapters_draft text)
  | .error e =>
    .error (.httpException 500 (lc "Error generating chapters with AI: " ++ pyStr e))

/-- Embedding of `refine_chapters_with_gemini` (main.py lines 178-259),
analogous to `generate_chapters_with_gemini`. -/
def refine_chapters_with_gemini (initial_chapters : List Chapter)
    (transcript : List FormattedEntry) (modelResult : Except PyErr (List Char)) :
    Except PyErr (List Chapter) :=
  match modelResult with
  | .ok text => .ok (parse_chapters_refine text)
  | .error e =>
    .error (.httpException 500 (lc "Error refining chapters with AI: " ++ pyStr e))

/-- The request body of `POST /generate_chapters` (pydantic `VideoRequest`). -/
structure VideoRequest where
  url : List Char
  language : Option (List Char)

/-- The JSON body returned on success by `generate_chapters`
(main.py lines 280-288). -/
structure SuccessBody where
  success : Bool
  video_id : List Char
  language : List Char
  transcript : List FormattedEntry
  full_text : List Char
  initial_chapters : List Chapter
  chapters : List Chapter
deriving DecidableEq

/-- The handler's `except` clauses (main.py lines 295-300): `ValueError`
maps to `HTTPException(400, str(e))`, anything else - FastAPI's
`HTTPException` included, since it subclasses `Exception` - maps to
`HTTPException(500, f"An unexpected error occurred: {str(e)}")`.  The
result is the `(status_code, detail)` the framework serializes as
`{"detail": ...}`. -/
def outer_catch (e : PyErr) : Nat × List Char :=
  match e with
  | .valueError msg => (400, msg)
  | e => (500, lc "An unexpected error occurred: " ++ pyStr e)

/-- The body of the inner `try` of `generate_chapters`
(main.py lines 273-288): draft, refine, then build the response dict
(whose `video_id` re-runs `extract_video_id`). -/
def ai_stage (url : List Char) (transcript : List FormattedEntry)
    (detected_language full_text : List Char)
    (draftModel refineModel : Except PyErr (List Char)) : Except PyErr SuccessBody :=
  match generate_chapters_with_gemini transcript draftModel with
  | .error e => .error e
  | .ok initial_chapters =>
    match refine_chapters_with_gemini initial_chapters transcript refineModel with
    | .error e => .error e
    | .ok refined_chapters =>
      match extract_video_id url with
      | .error e => .error e
      | .ok video_id =>
        .ok ⟨true, video_id, detected_language, transcript, full_text,
          initial_chapters, refined_chapters⟩

/-- Embedding of the endpoint `generate_chapters` (main.py lines 261-300).
`fetch_transcript`, then `full_text = " ".join(...)` (line 271), then the
inner `try` (`ai_stage`); an exception from the inner try is re-raised as
`HTTPException(500, f"Error processing with AI: {str(ai_error)}")`, which
the outer `except` clauses then handle (`outer_catch`).  Failures are the
`(status, detail)` pair of the `HTTPException` the framework reports. -/
def generate_chapters (request : VideoRequest) (p : Provider)
    (draftModel refineModel : Except PyErr (List Char)) :
    Except (Nat × List Char) SuccessBody :=
  match fetch_transcript request.url request.language p with
  | .error e => .error (outer_catch e)
  | .ok (transcript, detected_language) =>
    match ai_stage request.url transcript detected_language
        (List.intercalate [' '] (transcript.map FormattedEntry.text))
        draftModel refineModel with
    | .ok body => .ok body
    | .error ai_error =>
      .error (outer_catch (.httpException 500 (lc "Error processing with AI: " ++ pyStr ai_error)))

/-! ## Claim-side definitions (stated from the specification's words) -/

/-- The keep-condition of the spec for a parsed line: the line contains
`" - "` and the part before the first `" - "` contains `":"`. -/
def claimKeep (line : List Char) : Bool :=
  pyIn sepDash line && pyIn [':'] (pySplit0 sepDash line)

/-- The spec's split of a kept line on the first `" - "`: timestamp is the
part before (trimmed), title the part after (trimmed). -/
def claimSplitLine (line : List Char) : Chapter :=
  ⟨pyStrip (pySplit0 sepDash line), pyStrip ((splitHead sepDash line).2.getD [])⟩

/-- The parser exactly as the claim describes it: split the model-response
string into lines, keep the conforming ones in order, split each. -/
def claimedParseLines (s : List Char) : List Chapter :=
  ((List.splitOn '\n' s).filter claimKeep).map claimSplitLine

/-- The video-identifier extraction exactly as the claim describes it for
urls containing `"v="`: the text after (the first) `"v="` up to, not
including, the next `'&'` or the end of the string. -/
def claimed_video_id (url : List Char) : Option (List Char) :=
  if pyIn (lc "v=") url then
    some (((splitHead (lc "v=") url).2.getD []).takeWhile (fun c => !(c == '&')))
  else none

/-- Decimal rendering of a natural number zero-padded to at least two
digits, as the claim describes the `MM` and `SS` components. -/
def natPad2 (n : Nat) : List Char :=
  if (Nat.toDigits 10 n).length < 2 then '0' :: Nat.toDigits 10 n else Nat.toDigits 10 n

/-- The time formatter exactly as the claim describes it: minutes are
`floor(s/60)` and seconds `floor(s mod 60)` (with `s mod 60` the
mathematical `s - 60 * floor(s/60)`), both zero-padded to two digits and
joined by `':'`. -/
def claimed_format (s : ℚ) : List Char :=
  natPad2 (⌊s / 60⌋).toNat ++ ':' :: natPad2 (⌊s - 60 * ((⌊s / 60⌋ : ℤ) : ℚ)⌋).toNat

/-! ## Parser lemmas -/

theorem draft_parse_loop_eq : ∀ (ls : List (List Char)) (acc : List Chapter),
    draft_parse_loop ls acc = acc ++ (ls.filter claimKeep).map claimSplitLine := by
  intro ls
  induction ls with
  | nil => intro acc; simp [draft_parse_loop]
  | cons l ls ih =>
    intro acc
    simp only [draft_parse_loop, List.filter_cons]
    rw [show (pyIn sepDash l && pyIn [':'] (pySplit0 sepDash l)) = claimKeep l from rfl]
    cases hc : claimKeep l with
    | true => simp [ih, claimSplitLine]
    | false => simp [ih]

theorem parse_loops_eq : ∀ (ls : List (List Char)) (acc : List Chapter),
    draft_parse_loop ls acc = refine_parse_loop ls acc := by
  intro ls
  induction ls with
  | nil => intro acc; rfl
  | cons l ls ih =>
    intro acc
    simp only [draft_parse_loop, refine_parse_loop]
    cases hc : (pyIn sepDash l && pyIn [':'] (pySplit0 sepDash l)) <;> simp [hc, ih]

/-! ## Claims C3, C4, C5 -/

/-- C3 counterexample: on the model response `"1:2 - "` the code's parser
returns no chapter (the global `strip()` removes the trailing space, so
the line no longer contains `" - "`), while the claim's line-by-line rule
keeps the line as `("1:2", "")`. -/
theorem c3_counterexample :
    parse_chapters_draft (lc "1:2 - ") = [] ∧
    claimedParseLines (lc "1:2 - ") = [⟨lc "1:2", lc ""⟩] ∧
    parse_chapters_draft (lc "1:2 - ") ≠ claimedParseLines (lc "1:2 - ") :=
  ⟨rfl, rfl, by decide⟩

/-- C3 (amended): the parser first strips leading/trailing whitespace from
the whole model-response string and then behaves exactly as the claim
says: it splits into lines, keeps a line iff it contains `" - "` with a
`':'` before the first `" - "`, splits each kept line on the first
`" - "` into trimmed timestamp and title, in input order; in particular
`"02:15 - Setup and Installation"` parses to the claimed chapter and
`"Random narration text"` is dropped. -/
theorem c3_parser_amended :
    (∀ s : List Char, parse_chapters_draft s = claimedParseLines (pyStrip s)) ∧
    parse_chapters_draft (lc "02:15 - Setup and Installation") =
      [⟨lc "02:15", lc "Setup and Installation"⟩] ∧
    parse_chapters_draft (lc "Random narration text") = [] := by
  refine ⟨fun s => ?_, rfl, rfl⟩
  unfold parse_chapters_draft claimedParseLines
  simpa using draft_parse_loop_eq (List.splitOn '\n' (pyStrip s)) []

/-- C4: parsing of model output is total and never raises - whenever the
model call returns a text, both the Drafter and the Refiner return
successfully with exactly the conforming lines (every non-conforming line
is dropped), and an empty chapter list is a valid success outcome, as on
the all-dropped response `"Random narration text"`. -/
theorem c4_parsing_total :
    (∀ (transcript : List FormattedEntry) (text : List Char),
      generate_chapters_with_gemini transcript (Except.ok text) =
        Except.ok (parse_chapters_draft text)) ∧
    (∀ (initial : List Chapter) (transcript : List FormattedEntry) (text : List Char),
      refine_chapters_with_gemini initial transcript (Except.ok text) =
        Except.ok (parse_chapters_refine text)) ∧
    (∀ text : List Char, parse_chapters_draft text =
      ((List.splitOn '\n' (pyStrip text)).filter claimKeep).map claimSplitLine) ∧
    generate_chapters_with_gemini [] (Except.ok (lc "Random narration text")) =
      Except.ok [] ∧
    refine_chapters_with_gemini [] [] (Except.ok (lc "Random narration text")) =
      Except.ok [] := by
  refine ⟨fun _ _ => rfl, fun _ _ _ => rfl, fun text => ?_, rfl, rfl⟩
  simpa using draft_parse_loop_eq (List.splitOn '\n' (pyStrip text)) []

/-- C5: the Refiner's parsing of a model response is extensionally
identical to the Drafter's (the source duplicates the loop verbatim). -/
theorem c5_refiner_parse_eq_drafter (s : List Char) :
    parse_chapters_refine s = parse_chapters_draft s := by
  unfold parse_chapters_refine parse_chapters_draft
  exact (parse_loops_eq _ _).symm

/-! ## Arithmetic lemmas for the time formatter -/

theorem pyFloorDiv_60_eq (a : ℚ) : pyFloorDiv a 60 = ((⌊a / 60⌋ : ℤ) : ℚ) := by
  have h1 : a / 60 = ((a.num : ℚ) / ((a.den * 60 : ℕ) : ℚ)) := by
    conv_lhs => rw [← Rat.num_div_den a]
    rw [div_div]
    push_cast
    ring_nf
  have h2 : ⌊a / 60⌋ = a.num / ((a.den * 60 : ℕ) : ℤ) := by
    rw [h1, Rat.floor_intCast_div_natCast]
  have h3 : Int.fdiv (a.num * (60:ℚ).den) ((a.den : ℤ) * (60:ℚ).num) =
      a.num / ((a.den * 60 : ℕ) : ℤ) := by
    show Int.fdiv (a.num * 1) ((a.den : ℤ) * 60) = _
    rw [Int.fdiv_eq_ediv _ (by positivity)]
    push_cast
    ring_nf
  rw [pyFloorDiv, h2, ← h3]

theorem pyMod_60_eq (a : ℚ) : pyMod a 60 = a - 60 * ((⌊a / 60⌋ : ℤ) : ℚ) := by
  have hden : ((a.den : ℚ)) ≠ 0 := Nat.cast_ne_zero.mpr a.den_nz
  have ha : (a.num : ℚ) = a * (a.den : ℚ) := (div_eq_iff hden).mp (Rat.num_div_den a)
  have hfd := pyFloorDiv_60_eq a
  rw [pyFloorDiv] at hfd
  rw [pyMod, Rat.divInt_eq_div]
  simp only [show (60:ℚ).den = 1 from rfl, show (60:ℚ).num = 60 from rfl, Nat.cast_one,
    mul_one] at hfd ⊢
  rw [div_eq_iff (show (((a.den : ℤ) : ℚ)) ≠ 0 by exact_mod_cast hden)]
  push_cast
  rw [hfd, ha]
  ring

theorem pyInt_intCast (k : ℤ) : pyInt ((k : ℤ) : ℚ) = k := by
  simp [pyInt, Rat.num_intCast, Rat.den_intCast]

theorem pyInt_eq_floor_of_nonneg (q : ℚ) (h : 0 ≤ q) : pyInt q = ⌊q⌋ := by
  rw [pyInt, Rat.floor_def]
  exact Int.tdiv_eq_ediv (Rat.num_nonneg.mpr h) (by positivity)

theorem pyFormat02_eq_natPad2 (i : ℤ) (h : 0 ≤ i) : pyFormat02 i = natPad2 i.toNat := by
  simp only [pyFormat02, natPad2, intDigits, if_neg (not_lt.mpr h)]

/-! ## Claim C8 -/

/-- C8: for every non-negative (idealized) seconds value `s`, the time
formatter returns minutes `floor(s/60)` zero-padded to at least two
digits, a `':'`, and seconds `floor(s mod 60)` zero-padded to two digits;
in particular `0`, `65`, `3599`, `3600` map to `"00:00"`, `"01:05"`,
`"59:59"`, `"60:00"`. -/
theorem c8_format_time :
    (∀ s : ℚ, 0 ≤ s → format_time s = claimed_format s) ∧
    format_time 0 = lc "00:00" ∧ format_time 65 = lc "01:05" ∧
    format_time 3599 = lc "59:59" ∧ format_time 3600 = lc "60:00" := by
  refine ⟨fun s hs => ?_, by decide, by decide, by decide, by decide⟩
  have hdiv : (0:ℚ) ≤ s / 60 := by positivity
  have hfl : (0:ℤ) ≤ ⌊s / 60⌋ := Int.floor_nonneg.mpr hdiv
  have hmod_nonneg : (0:ℚ) ≤ s - 60 * ((⌊s / 60⌋ : ℤ) : ℚ) := by
    have h1 : ((⌊s / 60⌋ : ℤ) : ℚ) ≤ s / 60 := Int.floor_le _
    linarith
  have hfl2 : (0:ℤ) ≤ ⌊s - 60 * ((⌊s / 60⌋ : ℤ) : ℚ)⌋ := Int.floor_nonneg.mpr hmod_nonneg
  unfold format_time claimed_format
  rw [pyFloorDiv_60_eq, pyMod_60_eq, pyInt_intCast,
    pyInt_eq_floor_of_nonneg _ hmod_nonneg,
    pyFormat02_eq_natPad2 _ hfl, pyFormat02_eq_natPad2 _ hfl2]

/-- C8 witness at the concrete input 3599. -/
theorem c8_format_time_witness :
    (0:ℚ) ≤ 3599 ∧ format_time 3599 = claimed_format 3599 :=
  ⟨by decide, c8_format_time.1 3599 (by decide)⟩

/-! ## Lemmas about splitHead, for the URL parser -/

theorem pyIn_false_cons (sep : List Char) (c : Char) (r : List Char)
    (h : pyIn sep (c :: r) = false) : pyIn sep r = false := by
  unfold pyIn at h ⊢
  by_cases hp : sep.isPrefixOf (c :: r)
  · simp [splitHead, hp] at h
  · simpa [splitHead, hp] using h

theorem splitHead_fst_of_none (sep : List Char) : ∀ s : List Char,
    (splitHead sep s).2 = none → (splitHead sep s).1 = s := by
  intro s
  induction s with
  | nil => intro _; rfl
  | cons c r ih =>
    intro h2
    by_cases hp : sep.isPrefixOf (c :: r)
    · simp [splitHead, hp] at h2
    · simp only [splitHead] at h2 ⊢
      rw [if_neg hp] at h2 ⊢
      show c :: (splitHead sep r).1 = c :: r
      exact congrArg (c :: ·) (ih h2)

theorem splitHead_single_of_not_mem (c : Char) : ∀ a : List Char, c ∉ a →
    splitHead [c] a = (a, none) := by
  intro a
  induction a with
  | nil => intro _; rfl
  | cons d a2 ih =>
    intro h
    have hd : ¬(c = d) := fun hc => h (hc ▸ List.mem_cons_self d a2)
    have hpre : List.isPrefixOf [c] (d :: a2) = false := by
      simp [List.isPrefixOf, hd]
    have h2 : c ∉ a2 := fun hc => h (List.mem_cons_of_mem d hc)
    simp [splitHead, hpre, ih h2]

theorem splitHead_single_fst_append (c : Char) : ∀ a t : List Char, c ∉ a →
    (splitHead [c] (a ++ c :: t)).1 = a := by
  intro a
  induction a with
  | nil =>
    intro t _
    show (splitHead [c] (c :: t)).1 = []
    simp [splitHead, List.isPrefixOf]
  | cons d a2 ih =>
    intro t h
    have hd : ¬(c = d) := fun hc => h (hc ▸ List.mem_cons_self d a2)
    have hpre : List.isPrefixOf [c] (d :: (a2 ++ c :: t)) = false := by
      simp [List.isPrefixOf, hd]
    have h2 : c ∉ a2 := fun hc => h (List.mem_cons_of_mem d hc)
    show (splitHead [c] (d :: (a2 ++ c :: t))).1 = d :: a2
    simp [splitHead, hpre, ih t h2]

theorem vEq_not_prefix_aux (c : Char) (a b : List Char)
    (h : pyIn (lc "v=") (c :: a) = false) (hb : b.head? ≠ some '=') :
    (lc "v=").isPrefixOf (c :: (a ++ b)) = false := by
  show List.isPrefixOf ['v', '='] (c :: (a ++ b)) = false
  by_cases hc : c = 'v'
  · subst hc
    simp only [List.isPrefixOf, beq_self_eq_true, Bool.true_and]
    cases a with
    | nil =>
      cases b with
      | nil => rfl
      | cons x xs =>
        have hx : ¬('=' = x) := fun he => hb (by simp [← he])
        simp [List.isPrefixOf, hx]
    | cons d a2 =>
      by_cases hd : d = '='
      · exfalso
        subst hd
        have htrue : pyIn (lc "v=") ('v' :: '=' :: a2) = true := by
          simp [pyIn, splitHead, List.isPrefixOf]
        rw [h] at htrue
        exact Bool.noConfusion htrue
      · have hd2 : ¬('=' = d) := fun he => hd he.symm
        simp [List.isPrefixOf, hd2]
  · have hc2 : ¬('v' = c) := fun he => hc he.symm
    simp [List.isPrefixOf, hc2]

theorem splitHead_vEq_append (a t : List Char) (h : pyIn (lc "v=") a = false) :
    splitHead (lc "v=") (a ++ 'v' :: '=' :: t) = (a, some t) := by
  induction a with
  | nil =>
    show splitHead (lc "v=") ('v' :: '=' :: t) = ([], some t)
    rw [show lc "v=" = ['v', '='] from rfl]
    simp [splitHead, List.isPrefixOf]
  | cons c a2 ih =>
    have hpre : (lc "v=").isPrefixOf (c :: (a2 ++ 'v' :: '=' :: t)) = false :=
      vEq_not_prefix_aux c a2 ('v' :: '=' :: t) h (by simp)
    have ih2 := ih (pyIn_false_cons _ _ _ h)
    show splitHead (lc "v=") (c :: (a2 ++ 'v' :: '=' :: t)) = (c :: a2, some t)
    simp [splitHead, hpre, ih2]

theorem splitHead_vEq_amp (a r : List Char) (h : pyIn (lc "v=") a = false) :
    ∃ q, (splitHead (lc "v=") (a ++ '&' :: r)).1 = a ++ '&' :: q := by
  induction a with
  | nil =>
    refine ⟨(splitHead (lc "v=") r).1, ?_⟩
    show (splitHead (lc "v=") ('&' :: r)).1 = '&' :: (splitHead (lc "v=") r).1
    simp [splitHead, List.isPrefixOf]
  | cons c a2 ih =>
    have hpre : (lc "v=").isPrefixOf (c :: (a2 ++ '&' :: r)) = false :=
      vEq_not_prefix_aux c a2 ('&' :: r) h (by simp)
    obtain ⟨q, hq⟩ := ih (pyIn_false_cons _ _ _ h)
    refine ⟨q, ?_⟩
    show (splitHead (lc "v=") (c :: (a2 ++ '&' :: r))).1 = (c :: a2) ++ '&' :: q
    simp [splitHead, hpre, hq]

/-! ## Claim C7 -/

/-- C7 counterexample: for the url `"v=av=b"` (which contains `"v="`) the
claim's rule - text after `"v="` up to the next `'&'` or the end - gives
`"av=b"`, but `url.split('v=')[1]` stops at the second `"v="`, so the
code extracts `"a"`. -/
theorem c7_counterexample :
    extract_video_id (lc "v=av=b") = Except.ok (lc "a") ∧
    claimed_video_id (lc "v=av=b") = some (lc "av=b") ∧
    lc "a" ≠ lc "av=b" :=
  ⟨rfl, rfl, by decide⟩

/-- C7 (amended): for a url containing `"v="`, the extracted identifier is
the text after the first `"v="` up to (not including) the next `'&'` or
the next `"v="` or the end of the string, whichever comes first.  Stated
on the decomposition `pre ++ "v=" ++ vid ++ rest` where `vid` contains
neither delimiter and `rest` is empty or starts with `'&'` or `"v="`. -/
theorem c7_extract_amended (pre vid rest : List Char)
    (hpre : pyIn (lc "v=") pre = false)
    (hvid : pyIn (lc "v=") vid = false)
    (hamp : '&' ∉ vid)
    (hrest : rest = [] ∨ (∃ r, rest = '&' :: r) ∨ (∃ r, rest = 'v' :: '=' :: r)) :
    extract_video_id (pre ++ 'v' :: '=' :: (vid ++ rest)) = Except.ok vid := by
  have hsplit : splitHead (lc "v=") (pre ++ 'v' :: '=' :: (vid ++ rest)) =
      (pre, some (vid ++ rest)) := splitHead_vEq_append pre (vid ++ rest) hpre
  have hin : pyIn (lc "v=") (pre ++ 'v' :: '=' :: (vid ++ rest)) = true := by
    simp [pyIn, hsplit]
  have hseg : pySplit1 (lc "v=") (pre ++ 'v' :: '=' :: (vid ++ rest)) =
      (splitHead (lc "v=") (vid ++ rest)).1 := by
    simp [pySplit1, hsplit]
  rw [extract_video_id, if_pos (by simp [hin]), hseg]
  rcases hrest with h0 | ⟨r, h0⟩ | ⟨r, h0⟩
  · subst h0
    have hnone : (splitHead (lc "v=") (vid ++ [])).2 = none := by
      rw [List.append_nil]
      simpa [pyIn, Option.isSome_iff_exists] using hvid
    rw [splitHead_fst_of_none _ _ hnone, List.append_nil]
    show Except.ok (splitHead ['&'] vid).1 = Except.ok vid
    rw [splitHead_single_of_not_mem '&' vid hamp]
  · subst h0
    obtain ⟨q, hq⟩ := splitHead_vEq_amp vid r hvid
    rw [hq]
    show Except.ok (splitHead ['&'] (vid ++ '&' :: q)).1 = Except.ok vid
    rw [splitHead_single_fst_append '&' vid q hamp]
  · subst h0
    rw [show splitHead (lc "v=") (vid ++ 'v' :: '=' :: r) = (vid, some r) from
      splitHead_vEq_append vid r hvid]
    show Except.ok (splitHead ['&'] vid).1 = Except.ok vid
    rw [splitHead_single_of_not_mem '&' vid hamp]

/-- C7 witness: the amended rule applied to a realistic watch-url with an
extra query parameter after the identifier. -/
theorem c7_extract_amended_witness :
    pyIn (lc "v=") (lc "https://www.youtube.com/watch?") = false ∧
    pyIn (lc "v=") (lc "dQw4w9WgXcQ") = false ∧
    '&' ∉ lc "dQw4w9WgXcQ" ∧
    extract_video_id (lc "https://www.youtube.com/watch?" ++ 'v' :: '=' ::
      (lc "dQw4w9WgXcQ" ++ lc "&t=1")) = Except.ok (lc "dQw4w9WgXcQ") :=
  ⟨by decide, by decide, by decide,
    c7_extract_amended (lc "https://www.youtube.com/watch?") (lc "dQw4w9WgXcQ") (lc "&t=1")
      (by decide) (by decide) (by decide)
      (Or.inr (Or.inl ⟨lc "t=1", rfl⟩))⟩

/-! ## Concrete providers used by witnesses and counterexamples -/

/-- A provider whose transcript listing is empty. -/
def prov_empty_listing : Provider :=
  ⟨fun _ => Except.ok [], fun _ _ => Except.error (.other [])⟩

/-- A provider with a single English track and a one-entry transcript. -/
def prov_one_track : Provider :=
  ⟨fun _ => Except.ok [⟨lc "en"⟩], fun _ _ => Except.ok [⟨0, 1, lc "hello"⟩]⟩

/-- A provider with a single English track and a two-entry transcript with
texts `"a"` and `"b"`. -/
def prov_two_entries : Provider :=
  ⟨fun _ => Except.ok [⟨lc "en"⟩], fun _ _ => Except.ok [⟨0, 1, lc "a"⟩, ⟨1, 1, lc "b"⟩]⟩

/-- The success body produced by `prov_two_entries` with model responses
that parse to no chapters. -/
def c2Body : SuccessBody :=
  ⟨true, lc "abc", lc "en",
    [⟨lc "00:00", lc "a", 0, 1⟩, ⟨lc "00:01", lc "b", 1, 1⟩], lc "a b", [], []⟩

/-! ## Claim C1 -/

/-- C1: for every request whose url contains neither `"v="` nor
`"youtu.be/"`, the handler does NOT return 400: `fetch_transcript`'s
blanket `except Exception` swallows the `ValueError` and re-raises
`HTTPException(404, ...)`, which the handler's own `except Exception`
(line 297; `HTTPException` subclasses `Exception`) converts into a 500
response - the `except ValueError -> 400` branch (line 295) is
unreachable for this path. -/
theorem c1_invalid_url_gets_500 (url : List Char) (lang : Option (List Char))
    (p : Provider) (dm rm : Except PyErr (List Char))
    (h1 : pyIn (lc "v=") url = false) (h2 : pyIn (lc "youtu.be/") url = false) :
    generate_chapters ⟨url, lang⟩ p dm rm =
      Except.error (500,
        lc "An unexpected error occurred: 404: Error fetching transcript: Invalid YouTube URL") := by
  have he : extract_video_id url = Except.error (.valueError (lc "Invalid YouTube URL")) := by
    rw [extract_video_id, if_neg (by simp [h1]), if_neg (by simp [h2])]
  simp only [generate_chapters, fetch_transcript, fetch_transcript_body, he, pyStr, outer_catch]
  rfl

/-- C1 witness at the concrete url `"https://example.com"`. -/
theorem c1_invalid_url_gets_500_witness :
    pyIn (lc "v=") (lc "https://example.com") = false ∧
    pyIn (lc "youtu.be/") (lc "https://example.com") = false ∧
    generate_chapters ⟨lc "https://example.com", none⟩ prov_one_track
      (Except.ok []) (Except.ok []) =
      Except.error (500,
        lc "An unexpected error occurred: 404: Error fetching transcript: Invalid YouTube URL") :=
  ⟨by decide, by decide,
    c1_invalid_url_gets_500 (lc "https://example.com") none prov_one_track
      (Except.ok []) (Except.ok []) (by decide) (by decide)⟩

/-! ## Claim C9 -/

/-- C9: with no requested language and an empty track listing,
`next(iter(transcript_list))` raises `StopIteration`, which
`fetch_transcript` does wrap as `HTTPException(404, "Error fetching
transcript: ")` - but the handler's blanket `except Exception` re-wraps
that `HTTPException` into a 500 response, so the client receives 500,
not the 404 the claim states. -/
theorem c9_empty_listing_gets_500 :
    fetch_transcript (lc "v=x") none prov_empty_listing =
      Except.error (.httpException 404 (lc "Error fetching transcript: ")) ∧
    generate_chapters ⟨lc "v=x", none⟩ prov_empty_listing (Except.ok []) (Except.ok []) =
      Except.error (500, lc "An unexpected error occurred: 404: Error fetching transcript: ") :=
  ⟨rfl, rfl⟩

/-! ## Claim C10 -/

theorem ai_stage_ok (url : List Char) (t : List FormattedEntry) (l ft : List Char)
    (dm rm : Except PyErr (List Char)) (b : SuccessBody)
    (h : ai_stage url t l ft dm rm = Except.ok b) :
    b.transcript = t ∧ b.full_text = ft := by
  unfold ai_stage at h
  cases hg : generate_chapters_with_gemini t dm with
  | error e => simp only [hg] at h; exact Except.noConfusion h
  | ok ic =>
    simp only [hg] at h
    cases hr : refine_chapters_with_gemini ic t rm with
    | error e => simp only [hr] at h; exact Except.noConfusion h
    | ok rc =>
      simp only [hr] at h
      cases hv : extract_video_id url with
      | error e => simp only [hv] at h; exact Except.noConfusion h
      | ok vid =>
        simp only [hv] at h
        injection h with h2
        subst h2
        exact ⟨rfl, rfl⟩

/-- C10: whenever the transcript fetch succeeds and the draft model call
returns a text (so drafting succeeds), a failing refinement stage makes
the handler return HTTP 500 with a body that is only a detail string; no
transcript, full-text or draft-chapter data is part of the error
response. -/
theorem c10_refine_failure_gets_500 (request : VideoRequest) (p : Provider)
    (dtext : List Char) (e : PyErr) (t : List FormattedEntry) (l : List Char)
    (hf : fetch_transcript request.url request.language p = Except.ok (t, l)) :
    ∃ d, generate_chapters request p (Except.ok dtext) (Except.error e) =
      Except.error (500, d) :=
  ⟨lc "An unexpected error occurred: " ++
    pyStr (.httpException 500 (lc "Error processing with AI: " ++
      pyStr (.httpException 500 (lc "Error refining chapters with AI: " ++ pyStr e)))), by
    simp only [generate_chapters, hf, ai_stage, generate_chapters_with_gemini,
      refine_chapters_with_gemini, outer_catch]⟩

/-- C10 witness: a concrete run whose refinement call fails. -/
theorem c10_refine_failure_gets_500_witness :
    fetch_transcript (lc "v=abc") none prov_one_track =
      Except.ok ([⟨lc "00:00", lc "hello", 0, 1⟩], lc "en") ∧
    ∃ d, generate_chapters ⟨lc "v=abc", none⟩ prov_one_track (Except.ok [])
      (Except.error (.other (lc "boom"))) = Except.error (500, d) :=
  ⟨rfl, c10_refine_failure_gets_500 ⟨lc "v=abc", none⟩ prov_one_track []
    (.other (lc "boom")) [⟨lc "00:00", lc "hello", 0, 1⟩] (lc "en") rfl⟩

/-! ## Claim C2 -/

/-- C2 counterexample: a successful run over a two-entry transcript with
texts `"a"` and `"b"`.  The response's `full_text` is `"a b"` - the texts
joined by `" ".join(...)` - while their concatenation is `"ab"`. -/
theorem c2_counterexample :
    generate_chapters ⟨lc "v=abc", none⟩ prov_two_entries (Except.ok []) (Except.ok []) =
      Except.ok c2Body ∧
    (c2Body.transcript.map FormattedEntry.text).flatten = lc "ab" ∧
    c2Body.full_text ≠ (c2Body.transcript.map FormattedEntry.text).flatten :=
  ⟨rfl, rfl, by decide⟩

/-- C2 (amended): for every successful request, `full_text` equals the
texts of the transcript entries joined with a single space between
consecutive entries, in transcript order. -/
theorem c2_full_text_amended (request : VideoRequest) (p : Provider)
    (dm rm : Except PyErr (List Char)) (b : SuccessBody)
    (h : generate_chapters request p dm rm = Except.ok b) :
    b.full_text = List.intercalate [' '] (b.transcript.map FormattedEntry.text) := by
  unfold generate_chapters at h
  cases hf : fetch_transcript request.url request.language p with
  | error e => simp only [hf] at h; exact Except.noConfusion h
  | ok tl =>
    obtain ⟨t, l⟩ := tl
    simp only [hf] at h
    cases ha : ai_stage request.url t l (List.intercalate [' '] (t.map FormattedEntry.text))
        dm rm with
    | error e => simp only [ha] at h; exact Except.noConfusion h
    | ok body =>
      simp only [ha] at h
      injection h with h2
      subst h2
      obtain ⟨htr, hft⟩ := ai_stage_ok request.url t l _ dm rm body ha
      rw [hft, htr]

/-- C2 witness: the amended statement at the concrete two-entry run. -/
theorem c2_full_text_amended_witness :
    generate_chapters ⟨lc "v=abc", none⟩ prov_two_entries (Except.ok []) (Except.ok []) =
      Except.ok c2Body ∧
    c2Body.full_text = List.intercalate [' '] (c2Body.transcript.map FormattedEntry.text) :=
  ⟨rfl, c2_full_text_amended ⟨lc "v=abc", none⟩ prov_two_entries
    (Except.ok []) (Except.ok []) c2Body rfl⟩

/-! ## Claim C6 -/

/-- C6: when the request supplies no (truthy) language code and the
provider's listing contains a track whose code is exactly `"en"`, the
selection logic picks `"en"` - regardless of the other tracks or their
order - and a successful fetch returns `"en"` as the detected language. -/
theorem c6_en_preferred (reqLang : Option (List Char)) (tracks : List Track)
    (url vid : List Char) (p : Provider)
    (hfalsy : reqLang = none ∨ reqLang = some [])
    (he : extract_video_id url = Except.ok vid)
    (hl : p.list_transcripts vid = Except.ok tracks)
    (hmem : lc "en" ∈ tracks.map Track.language_code) :
    detect_language reqLang tracks = Except.ok (lc "en") ∧
    ∀ t l, fetch_transcript url reqLang p = Except.ok (t, l) → l = lc "en" := by
  have htruthy : pyTruthy reqLang = false := by
    rcases hfalsy with h | h <;> subst h <;> rfl
  have hdet : detect_language reqLang tracks = Except.ok (lc "en") := by
    unfold detect_language
    rw [if_neg (by simp [htruthy]), if_pos hmem]
  refine ⟨hdet, fun t l hf => ?_⟩
  unfold fetch_transcript at hf
  simp only [fetch_transcript_body, he, hl, hdet] at hf
  cases hfe : p.fetch vid (lc "en") with
  | error e => simp only [hfe] at hf; exact Except.noConfusion hf
  | ok entries =>
    simp only [hfe] at hf
    injection hf with h2
    exact (congrArg Prod.snd h2).symm

/-- C6 witness: a single-track English listing with no requested
language. -/
theorem c6_en_preferred_witness :
    ((none : Option (List Char)) = none ∨ (none : Option (List Char)) = some []) ∧
    extract_video_id (lc "v=abc") = Except.ok (lc "abc") ∧
    prov_one_track.list_transcripts (lc "abc") = Except.ok [⟨lc "en"⟩] ∧
    lc "en" ∈ [(⟨lc "en"⟩ : Track)].map Track.language_code ∧
    (detect_language none [⟨lc "en"⟩] = Except.ok (lc "en") ∧
      ∀ t l, fetch_transcript (lc "v=abc") none prov_one_track = Except.ok (t, l) →
        l = lc "en") :=
  ⟨Or.inl rfl, rfl, rfl, by decide,
    c6_en_preferred none [⟨lc "en"⟩] (lc "v=abc") (lc "abc") prov_one_track
      (Or.inl rfl) rfl rfl (by decide)⟩
